import Mathlib

/-!
# SampleControllerBookApi: the Kluster reconciler

A shallow embedding of `cmd/main.go` and `pkg/apis/pulok.dev/v1alpha1/types.go`.

* Go `int32` values are integers in the range described by `IsInt32`; the one narrowing
  conversion of the program (`int32(i)` in `intstrPtr`) is `int32OfInt`.
* Go `map[string]string` values are `GoMap`s, with the nil map kept apart from the empty one.
* The two API clients are records of functions over the remote `Store`; every call a handler
  makes is appended to the `calls` trace of the `World`, every `fmt.Println` to its `out`.
* A handler invocation ends in an `Outcome`: it returns, or it panics.
-/

set_option linter.dupNamespace false

namespace BookApi

/-! ## Go values -/

/-- Range of a Go `int32`. -/
def IsInt32 (n : Int) : Prop := -2147483648 ≤ n ∧ n < 2147483648

instance instDecidableIsInt32 (n : Int) : Decidable (IsInt32 n) := by
  unfold IsInt32; infer_instance

/-- Go conversion `int32(i)` of an `int`: two's complement truncation to 32 bits. -/
def int32OfInt (i : Int) : Int := (i + 2147483648) % 4294967296 - 2147483648

/-- Go conversion `int(p)` of an `int32`: the value is kept. -/
def intOfInt32 (p : Int) : Int := p

/-- Go value of type `map[string]string`: `none` is the nil map, `some l` a map holding the
bindings of `l` (the first binding of a key is the one in force). -/
structure GoMap where
  entries : Option (List (String × String))
deriving DecidableEq, Repr

/-- The nil map, the zero value of a map type. -/
def GoMap.nil : GoMap := ⟨none⟩

/-- Map literal `map[string]string{k: v, ...}`. -/
def GoMap.literal (l : List (String × String)) : GoMap := ⟨some l⟩

/-- Two-valued lookup `v, ok := m[k]`: `none` when the key is absent or the map is nil. -/
def GoMap.get? (m : GoMap) (k : String) : Option String :=
  match m.entries with
  | none => none
  | some l => l.lookup k

/-- Index expression `m[k]`: the zero value `""` when the key is absent or the map is nil. -/
def GoMap.index (m : GoMap) (k : String) : String := (m.get? k).getD ""

/-- Digit loop of `fmt`'s `fmtInteger` in base 10: the digits of `u` are put in front of `buf`,
least significant first (`for u >= 10 { buf[i] = '0' + u%10; u /= 10 }; buf[i] = '0' + u`).
The first argument bounds the number of turns; `fmtSprint` passes a bound that is never reached. -/
def fmtInteger : Nat → Nat → List Char → List Char
  | 0, u, buf => Char.ofNat (48 + u % 10) :: buf
  | fuel + 1, u, buf =>
    if u ≥ 10 then fmtInteger fuel (u / 10) (Char.ofNat (48 + u % 10) :: buf)
    else Char.ofNat (48 + u) :: buf

/-- Go `fmt.Sprint(n)` for a signed integer `n`: its decimal digits, after a minus sign when
`n` is negative. -/
def fmtSprint (n : Int) : String :=
  if n < 0 then String.mk ('-' :: fmtInteger n.natAbs n.natAbs [])
  else String.mk (fmtInteger n.natAbs n.natAbs [])

/-- Value of a list of decimal digits, read from the left. -/
def digitsValue (ds : List Char) : Nat :=
  ds.foldl (fun acc c => 10 * acc + (c.toNat - 48)) 0

/-- Value of a decimal numeral: digits, after an optional minus sign. -/
def decimalValue (s : String) : Int :=
  match s.data with
  | '-' :: ds => -(digitsValue ds : Int)
  | ds => (digitsValue ds : Int)

/-! ## API types (the fields the program sets or reads) -/

/-- Go `metav1.ObjectMeta`. -/
structure ObjectMeta where
  Name : String := ""
  Namespace : String := ""
  Labels : GoMap := GoMap.nil
deriving DecidableEq, Repr

/-- Go `v1alpha1.KlusterSpec`; `Replicas` and `Port` are `int32`. -/
structure KlusterSpec where
  Replicas : Int
  Image : String
  Port : Int
deriving DecidableEq, Repr

/-- Go `v1alpha1.Kluster`. -/
structure Kluster extends ObjectMeta where
  Spec : KlusterSpec
deriving DecidableEq, Repr

/-- Go `v1alpha1.KlusterList`. -/
structure KlusterList where
  Items : List Kluster
deriving DecidableEq, Repr

/-- Go `corev1.ContainerPort`. -/
structure ContainerPort where
  ContainerPort : Int
deriving DecidableEq, Repr

/-- Go `corev1.Container`. -/
structure Container where
  Name : String
  Image : String
  Command : List String
  Ports : List ContainerPort
deriving DecidableEq, Repr

/-- Go `corev1.PodSpec`. -/
structure PodSpec where
  Containers : List Container
deriving DecidableEq, Repr

/-- Go `corev1.PodTemplateSpec`. -/
structure PodTemplateSpec extends ObjectMeta where
  Spec : PodSpec
deriving DecidableEq, Repr

/-- Go `metav1.LabelSelector`. -/
structure LabelSelector where
  MatchLabels : GoMap
deriving DecidableEq, Repr

/-- Go `appsv1.DeploymentSpec`; `Replicas` is a `*int32`, `Selector` a `*LabelSelector`. -/
structure DeploymentSpec where
  Replicas : Option Int
  Selector : Option LabelSelector
  Template : PodTemplateSpec
deriving DecidableEq, Repr

/-- Go `appsv1.Deployment`. -/
structure Deployment extends ObjectMeta where
  Spec : DeploymentSpec
deriving DecidableEq, Repr

/-- Go `intstr.Type`. -/
inductive IntstrType where
  | Int
  | String
deriving DecidableEq, Repr

/-- Go `intstr.IntOrString`. -/
structure IntOrString where
  Type_ : IntstrType
  IntVal : Int
  StrVal : String := ""
deriving DecidableEq, Repr

/-- Go `corev1.ServicePort`. -/
structure ServicePort where
  Port : Int
  TargetPort : IntOrString
deriving DecidableEq, Repr

/-- Go `corev1.ServiceType`. -/
inductive ServiceType where
  | ClusterIP
  | NodePort
  | LoadBalancer
  | ExternalName
deriving DecidableEq, Repr

/-- Go `corev1.ServiceSpec`. -/
structure ServiceSpec where
  Type_ : ServiceType
  Selector : GoMap
  Ports : List ServicePort
deriving DecidableEq, Repr

/-- Go `corev1.Service`. -/
structure Service extends ObjectMeta where
  Spec : ServiceSpec
deriving DecidableEq, Repr

/-! ## The remote store and the clients -/

/-- An object held by the cluster API store. -/
inductive Object where
  | deployment (d : Deployment)
  | service (s : Service)
  | kluster (k : Kluster)
deriving DecidableEq, Repr

/-- Contents of the cluster API store. -/
abbrev Store := List Object

/-- Go `metav1.StatusReason` of an API error. -/
inductive StatusReason where
  | AlreadyExists
  | NotFound
  | BadRequest
  | Forbidden
  | Invalid
  | Timeout
  | Unknown
deriving DecidableEq, Repr

/-- A non-nil `error` returned by an API call. -/
structure APIError where
  reason : StatusReason
  message : String
deriving DecidableEq, Repr

/-- Go `errors.IsAlreadyExists(err)`; `none` is the nil error. -/
def IsAlreadyExists (err : Option APIError) : Bool :=
  match err with
  | some e => e.reason == StatusReason.AlreadyExists
  | none => false

/-- Text `fmt` prints for an error operand. -/
def errorString (err : Option APIError) : String :=
  match err with
  | some e => e.message
  | none => "<nil>"

/-- Test that the store holds a Deployment with this namespace and name. -/
def hasDeployment (s : Store) (ns name : String) : Bool :=
  s.any fun o =>
    match o with
    | Object.deployment d => d.Namespace == ns && d.Name == name
    | _ => false

/-- Test that the store holds a Service with this namespace and name. -/
def hasService (s : Store) (ns name : String) : Bool :=
  s.any fun o =>
    match o with
    | Object.service v => v.Namespace == ns && v.Name == name
    | _ => false

/-- The typed client `kubeClient`, as far as the program uses it:
`AppsV1().Deployments(ns).Create` and `CoreV1().Services(ns).Create`. Each takes the store, the
namespace of the request and the object, and gives the store afterwards and the error. -/
structure KubeClient where
  CreateDeployment : Store → String → Deployment → Store × Option APIError
  CreateService : Store → String → Service → Store × Option APIError

/-- The generated client `customClient`, as far as the program uses it:
`PulokdevV1alpha1().Klusters(ns).List`, which gives a list and an error. -/
structure CustomClient where
  ListKlusters : Store → String → KlusterList × Option APIError

/-- A call made to the cluster API. -/
inductive Call where
  | createDeployment (ns : String) (d : Deployment)
  | createService (ns : String) (s : Service)
  | listKlusters (ns : String)
deriving DecidableEq, Repr

/-- Everything a handler can touch: the remote store, the trace of API calls made so far and
the lines written to standard output. -/
structure World where
  store : Store
  calls : List Call
  out : List String
deriving DecidableEq, Repr

/-- Go `fmt.Println(args...)`: one line, the operands separated by spaces. -/
def Println (args : List String) (w : World) : World :=
  { w with out := w.out ++ [String.intercalate " " args] }

/-! ## `cmd/main.go` -/

/-- Go `int32Ptr`: a pointer to a copy of the value. -/
def int32Ptr (i : Int) : Option Int := some i

/-- Go `intstrPtr`. -/
def intstrPtr (i : Int) : IntOrString :=
  { Type_ := IntstrType.Int, IntVal := int32OfInt i }

/-- The object `deployment` built by `recreateDeployment` (main.go lines 32 to 68). -/
def recreateDeployment.deployment (kluster : Kluster) : Deployment :=
  let replicas := kluster.Spec.Replicas
  let image := kluster.Spec.Image
  let port := if kluster.Spec.Port == 0 then 9090 else kluster.Spec.Port
  { Name := "bookapi-deployment"
    Namespace := "default"
    Labels := GoMap.literal [("app", "bookapi")]
    Spec :=
      { Replicas := int32Ptr replicas
        Selector := some { MatchLabels := GoMap.literal [("app", "bookapi")] }
        Template :=
          { Labels := GoMap.literal [("app", "bookapi")]
            Spec :=
              { Containers :=
                  [{ Name := "bookapi-container"
                     Image := image
                     Command := ["./BookApi", "start", "-p", fmtSprint port]
                     Ports := [{ ContainerPort := port }] }] } } } }

/-- Go `recreateDeployment`: build the Deployment, call Create, print the outcome. -/
def recreateDeployment (kubeClient : KubeClient) (kluster : Kluster) (w : World) : World :=
  let deployment := recreateDeployment.deployment kluster
  let r := kubeClient.CreateDeployment w.store "default" deployment
  let w1 : World :=
    { store := r.1, calls := w.calls ++ [Call.createDeployment "default" deployment], out := w.out }
  if r.2.isSome && !IsAlreadyExists r.2 then
    Println ["❌ Error creating Deployment:", errorString r.2] w1
  else
    Println ["✅ Deployment recreated"] w1

/-- The object `service` built by `recreateService` (main.go lines 79 to 102). -/
def recreateService.service (kluster : Kluster) : Service :=
  let port := if kluster.Spec.Port == 0 then 9090 else kluster.Spec.Port
  { Name := "bookapi-service"
    Namespace := "default"
    Labels := GoMap.literal [("app", "bookapi")]
    Spec :=
      { Type_ := ServiceType.ClusterIP
        Selector := GoMap.literal [("app", "bookapi")]
        Ports := [{ Port := port, TargetPort := intstrPtr (intOfInt32 port) }] } }

/-- Go `recreateService`: build the Service, call Create, print the outcome. -/
def recreateService (kubeClient : KubeClient) (kluster : Kluster) (w : World) : World :=
  let service := recreateService.service kluster
  let r := kubeClient.CreateService w.store "default" service
  let w1 : World :=
    { store := r.1, calls := w.calls ++ [Call.createService "default" service], out := w.out }
  if r.2.isSome && !IsAlreadyExists r.2 then
    Println ["❌ Error creating Service:", errorString r.2] w1
  else
    Println ["✅ Service recreated"] w1

/-- The `obj interface{}` argument of an event handler, by dynamic type. A pointer is `none`
when nil. `other` stands for every dynamic type the handlers do not name, for instance the
`cache.DeletedFinalStateUnknown` tombstone of a missed delete. -/
inductive Payload where
  | klusterPtr (p : Option Kluster)
  | deploymentPtr (p : Option Deployment)
  | servicePtr (p : Option Service)
  | other (typeName : String)
deriving DecidableEq, Repr

/-- Run-time panics the handlers can raise. -/
inductive Panic where
  | typeAssertion
  | nilDereference
  | indexOutOfRange
deriving DecidableEq, Repr

/-- How a handler invocation ends: it returns, or it panics; either way with the world as it
stood at that point. No function of `main.go` calls `recover`. -/
inductive Outcome where
  | returned (w : World)
  | panicked (p : Panic) (w : World)
deriving DecidableEq, Repr

/-- Test that the invocation returned. -/
def Outcome.isReturned : Outcome → Bool
  | Outcome.returned _ => true
  | Outcome.panicked _ _ => false

/-- The `AddFunc` of the Kluster informer. -/
def klusterAddFunc (kubeClient : KubeClient) (obj : Payload) (w : World) : Outcome :=
  match obj with
  | Payload.klusterPtr (some kluster) =>
    let w1 := Println ["🟢 Kluster Created:", kluster.Name] w
    let w2 := recreateDeployment kubeClient kluster w1
    Outcome.returned (recreateService kubeClient kluster w2)
  | Payload.klusterPtr none => Outcome.panicked Panic.nilDereference w
  | _ => Outcome.panicked Panic.typeAssertion w

/-- The `DeleteFunc` of the Kluster informer. -/
def klusterDeleteFunc (obj : Payload) (w : World) : Outcome :=
  match obj with
  | Payload.klusterPtr (some kluster) =>
    Outcome.returned (Println ["🔴 Kluster Deleted:", kluster.Name] w)
  | Payload.klusterPtr none => Outcome.panicked Panic.nilDereference w
  | _ => Outcome.panicked Panic.typeAssertion w

/-- The `DeleteFunc` of the Deployment informer. -/
def deploymentDeleteFunc (kubeClient : KubeClient) (customClient : CustomClient)
    (obj : Payload) (w : World) : Outcome :=
  match obj with
  | Payload.deploymentPtr (some deploy) =>
    if deploy.Labels.index "app" == "bookapi" then
      let w1 := Println ["🔁 Deployment deleted — self-healing triggered"] w
      let r := customClient.ListKlusters w1.store "default"
      let w2 : World := { w1 with calls := w1.calls ++ [Call.listKlusters "default"] }
      if r.2.isNone && r.1.Items.length > 0 then
        match r.1.Items[0]? with
        | some kluster => Outcome.returned (recreateDeployment kubeClient kluster w2)
        | none => Outcome.panicked Panic.indexOutOfRange w2
      else Outcome.returned w2
    else Outcome.returned w
  | Payload.deploymentPtr none => Outcome.panicked Panic.nilDereference w
  | _ => Outcome.panicked Panic.typeAssertion w

/-- The `DeleteFunc` of the Service informer. -/
def serviceDeleteFunc (kubeClient : KubeClient) (customClient : CustomClient)
    (obj : Payload) (w : World) : Outcome :=
  match obj with
  | Payload.servicePtr (some svc) =>
    if svc.Labels.index "app" == "bookapi" then
      let w1 := Println ["🔁 Service deleted — self-healing triggered"] w
      let r := customClient.ListKlusters w1.store "default"
      let w2 : World := { w1 with calls := w1.calls ++ [Call.listKlusters "default"] }
      if r.2.isNone && r.1.Items.length > 0 then
        match r.1.Items[0]? with
        | some kluster => Outcome.returned (recreateService kubeClient kluster w2)
        | none => Outcome.panicked Panic.indexOutOfRange w2
      else Outcome.returned w2
    else Outcome.returned w
  | Payload.servicePtr none => Outcome.panicked Panic.nilDereference w
  | _ => Outcome.panicked Panic.typeAssertion w


/-! ## A reference store, and the inputs of the worked instances -/

/-- An in-memory cluster store: Create refuses an object whose namespace differs from the
namespace of the request, refuses with AlreadyExists an object whose kind, namespace and name
are taken, and otherwise stores the object. -/
def memKube : KubeClient where
  CreateDeployment s ns d :=
    if d.Namespace != ns then
      (s, some ⟨StatusReason.BadRequest, "the namespace of the object does not match the request"⟩)
    else if hasDeployment s ns d.Name then
      (s, some ⟨StatusReason.AlreadyExists, "deployments.apps " ++ d.Name ++ " already exists"⟩)
    else (s ++ [Object.deployment d], none)
  CreateService s ns v :=
    if v.Namespace != ns then
      (s, some ⟨StatusReason.BadRequest, "the namespace of the object does not match the request"⟩)
    else if hasService s ns v.Name then
      (s, some ⟨StatusReason.AlreadyExists, "services " ++ v.Name ++ " already exists"⟩)
    else (s ++ [Object.service v], none)

/-- The Klusters of a namespace held by the store, in store order. -/
def klustersIn (s : Store) (ns : String) : List Kluster :=
  s.filterMap fun o =>
    match o with
    | Object.kluster k => if k.Namespace == ns then some k else none
    | _ => none

/-- The list call of the in-memory store; it never fails. -/
def memCustom : CustomClient where
  ListKlusters s ns := (⟨klustersIn s ns⟩, none)

/-- A list call that always fails. -/
def failingCustom : CustomClient where
  ListKlusters _ _ := (⟨[]⟩, some ⟨StatusReason.Timeout, "the server was unable to return a response in time"⟩)

/-- The Kluster of the scenario of the specification: three replicas, port left unset. -/
def scenarioKluster : Kluster :=
  { Name := "bookapi", Namespace := "default"
    Spec := { Replicas := 3, Image := "repo/bookapi:v1", Port := 0 } }

/-- A second Kluster of the same namespace, with an explicit port. -/
def otherKluster : Kluster :=
  { Name := "second", Namespace := "default"
    Spec := { Replicas := 1, Image := "repo/bookapi:v2", Port := 8080 } }

/-- A world with an empty store, no call made and nothing printed. -/
def emptyWorld : World := { store := [], calls := [], out := [] }

/-- A world whose store holds the two Klusters and nothing else. -/
def klusterWorld : World :=
  { store := [Object.kluster scenarioKluster, Object.kluster otherKluster], calls := [], out := [] }

/-- A Deployment with the fixed name whose label map is nil. -/
def unlabelledDeployment : Deployment :=
  { (recreateDeployment.deployment scenarioKluster) with Labels := GoMap.nil }

/-- A Service whose app label names another application. -/
def foreignService : Service :=
  { (recreateService.service scenarioKluster) with
    Name := "frontend", Labels := GoMap.literal [("tier", "web"), ("app", "frontend")] }

/-- Test that the dynamic type of the payload is `*v1alpha1.Kluster`. -/
def Payload.isKlusterPtr : Payload → Bool
  | Payload.klusterPtr _ => true
  | _ => false

/-- Test that the dynamic type of the payload is `*appsv1.Deployment`. -/
def Payload.isDeploymentPtr : Payload → Bool
  | Payload.deploymentPtr _ => true
  | _ => false

/-- Test that the dynamic type of the payload is `*corev1.Service`. -/
def Payload.isServicePtr : Payload → Bool
  | Payload.servicePtr _ => true
  | _ => false

/-! ## Contracts of the store used as hypotheses -/

/-- Create of a Deployment, requested in the namespace of the object, when a Deployment of that
namespace and name is in the store: it is refused with an AlreadyExists error and leaves the
store as it was. -/
def RejectsDuplicateDeployment (kube : KubeClient) : Prop :=
  ∀ (s : Store) (d : Deployment), hasDeployment s d.Namespace d.Name = true →
    ∃ e : APIError, e.reason = StatusReason.AlreadyExists ∧
      kube.CreateDeployment s d.Namespace d = (s, some e)

theorem int32OfInt_of_isInt32 (i : Int) (h : IsInt32 i) : int32OfInt i = i := by
  unfold IsInt32 at h
  unfold int32OfInt
  omega

theorem digit_eq_digitChar (d : Nat) (h : d < 10) : Char.ofNat (48 + d) = Nat.digitChar d := by
  interval_cases d <;> rfl

theorem digit_toNat (d : Nat) (h : d < 10) : (Char.ofNat (48 + d)).toNat - 48 = d := by
  interval_cases d <;> rfl

theorem digit_ne_minus (d : Nat) (h : d < 10) : Char.ofNat (48 + d) ≠ '-' := by
  interval_cases d <;> decide

/-- The digit loop computes the digits Lean's own decimal rendering computes. -/
theorem fmtInteger_eq_toDigitsCore (fuel u : Nat) (buf : List Char) :
    fmtInteger fuel u buf = Nat.toDigitsCore 10 (fuel + 1) u buf := by
  induction fuel generalizing u buf with
  | zero =>
    have hd := digit_eq_digitChar (u % 10) (Nat.mod_lt _ (by decide))
    by_cases h : u / 10 = 0 <;> simp [fmtInteger, Nat.toDigitsCore, h, hd]
  | succ fuel ih =>
    have hd := digit_eq_digitChar (u % 10) (Nat.mod_lt _ (by decide))
    rw [fmtInteger, Nat.toDigitsCore]
    by_cases h : u ≥ 10
    · have h0 : u / 10 ≠ 0 := by omega
      simp only [h, if_true, h0, if_false, ih, hd]
    · have h0 : u / 10 = 0 := by omega
      have hu : u % 10 = u := by omega
      rw [hu] at hd
      simp only [h, if_false, h0, if_true, hd, hu]

/-- The rendering of `fmtSprint` is the decimal rendering of Lean's `toString` on integers. -/
theorem fmtSprint_eq_toString (n : Int) : fmtSprint n = toString n := by
  cases n with
  | ofNat m =>
    have : ¬ (Int.ofNat m < 0) := by simp
    simp only [fmtSprint, this, if_false, Int.natAbs_ofNat, fmtInteger_eq_toDigitsCore]
    rfl
  | negSucc m =>
    have : Int.negSucc m < 0 := Int.negSucc_lt_zero m
    simp only [fmtSprint, this, if_true, Int.natAbs_negSucc, fmtInteger_eq_toDigitsCore]
    rfl

theorem fmtInteger_append (fuel u : Nat) (buf : List Char) :
    fmtInteger fuel u buf = fmtInteger fuel u [] ++ buf := by
  induction fuel generalizing u buf with
  | zero => simp [fmtInteger]
  | succ fuel ih =>
    rw [fmtInteger, fmtInteger]
    by_cases h : u ≥ 10
    · simp only [h, if_true]
      rw [ih (u / 10) (_ :: buf), ih (u / 10) [_]]
      simp
    · simp [h]

theorem fmtInteger_ne_minus (fuel u : Nat) (buf ds : List Char) :
    fmtInteger fuel u buf ≠ '-' :: ds := by
  induction fuel generalizing u buf with
  | zero =>
    intro h
    simp only [fmtInteger, List.cons.injEq] at h
    exact digit_ne_minus (u % 10) (Nat.mod_lt _ (by decide)) h.1
  | succ fuel ih =>
    rw [fmtInteger]
    by_cases h10 : u ≥ 10
    · simp only [h10, if_true]
      exact ih _ _
    · intro h
      simp only [h10, if_false, List.cons.injEq] at h
      exact digit_ne_minus u (by omega) h.1

theorem digitsValue_fmtInteger (fuel u : Nat) (h : u < 10 ^ (fuel + 1)) :
    digitsValue (fmtInteger fuel u []) = u := by
  unfold digitsValue
  induction fuel generalizing u with
  | zero =>
    have hu : u < 10 := by simpa using h
    have hm : u % 10 = u := by omega
    simp [fmtInteger, hm, digit_toNat u hu]
  | succ fuel ih =>
    rw [fmtInteger]
    by_cases h10 : u ≥ 10
    · simp only [h10, if_true]
      rw [fmtInteger_append, List.foldl_append]
      have hlt : u / 10 < 10 ^ (fuel + 1) := by
        rw [Nat.div_lt_iff_lt_mul (by decide)]
        calc u < 10 ^ (fuel + 1 + 1) := h
          _ = 10 ^ (fuel + 1) * 10 := by rw [pow_succ]
      rw [ih (u / 10) hlt]
      simp only [List.foldl_cons, List.foldl_nil]
      rw [digit_toNat (u % 10) (Nat.mod_lt _ (by decide))]
      omega
    · have hu : u < 10 := by omega
      simp [h10, digit_toNat u hu]

theorem natAbs_lt_pow (n : Nat) : n < 10 ^ (n + 1) :=
  calc n < 10 ^ n := Nat.lt_pow_self (by decide) _
    _ ≤ 10 ^ (n + 1) := Nat.pow_le_pow_right (by decide) (by omega)

/-- Reading back what `fmtSprint` printed gives the integer printed. -/
theorem decimalValue_fmtSprint (n : Int) : decimalValue (fmtSprint n) = n := by
  by_cases hn : n < 0
  · simp only [fmtSprint, hn, if_true, decimalValue]
    rw [digitsValue_fmtInteger n.natAbs n.natAbs (natAbs_lt_pow _)]
    omega
  · simp only [fmtSprint, hn, if_false, decimalValue]
    split
    · next ds h => exact absurd h (fmtInteger_ne_minus _ _ _ _)
    · rw [digitsValue_fmtInteger n.natAbs n.natAbs (natAbs_lt_pow _)]
      omega


/-! ## Lemmas on the handlers -/

/-- The label gate of the delete handlers is open exactly when the map binds app to bookapi. -/
theorem gate_iff (m : GoMap) :
    (m.index "app" == "bookapi") = true ↔ m.get? "app" = some "bookapi" := by
  unfold GoMap.index
  cases h : m.get? "app" with
  | none => simp
  | some v => simp

theorem recreateDeployment_calls (kube : KubeClient) (kluster : Kluster) (w : World) :
    (recreateDeployment kube kluster w).calls =
      w.calls ++ [Call.createDeployment "default" (recreateDeployment.deployment kluster)] := by
  unfold recreateDeployment
  simp only [Println]
  split <;> rfl

/-- When the store refuses duplicates and holds bookapi-deployment in namespace default,
recreateDeployment changes nothing in the store and prints the success line. -/
theorem recreateDeployment_of_present (kube : KubeClient) (hdup : RejectsDuplicateDeployment kube)
    (kluster : Kluster) (w : World)
    (hpresent : hasDeployment w.store "default" "bookapi-deployment" = true) :
    recreateDeployment kube kluster w =
      { store := w.store
        calls := w.calls ++ [Call.createDeployment "default" (recreateDeployment.deployment kluster)]
        out := w.out ++ ["✅ Deployment recreated"] } := by
  obtain ⟨e, he, hc⟩ := hdup w.store (recreateDeployment.deployment kluster) hpresent
  have hc2 : kube.CreateDeployment w.store "default" (recreateDeployment.deployment kluster) =
      (w.store, some e) := hc
  simp [recreateDeployment, hc2, IsAlreadyExists, he, Println]
  rfl

/-- What the in-memory store answers to a create requested in the namespace of the object. -/
theorem memKube_createDeployment (s : Store) (d : Deployment) :
    memKube.CreateDeployment s d.Namespace d =
      if hasDeployment s d.Namespace d.Name then
        (s, some ⟨StatusReason.AlreadyExists, "deployments.apps " ++ d.Name ++ " already exists"⟩)
      else (s ++ [Object.deployment d], none) := by
  simp [memKube]

/-- The in-memory store refuses duplicates. -/
theorem memKube_rejectsDuplicateDeployment : RejectsDuplicateDeployment memKube := by
  intro s d h
  exact ⟨_, rfl, by rw [memKube_createDeployment, if_pos h]⟩

/-- C1: for every Kluster whose port is an int32, the Deployment built by recreateDeployment
has one container port `p`, the Service built by recreateService has one port whose Port is `p`
and whose TargetPort is the integer `p`, for one and the same `p`; `p` is 9090 when spec.port
is 0 and is spec.port when spec.port is positive. -/
theorem resolved_port_agrees (kluster : Kluster) (hport : IsInt32 kluster.Spec.Port) :
    ∃ p : Int,
      (recreateDeployment.deployment kluster).Spec.Template.Spec.Containers.map
          (fun c => c.Ports) = [[{ ContainerPort := p }]] ∧
      (recreateService.service kluster).Spec.Ports =
        [{ Port := p, TargetPort := { Type_ := IntstrType.Int, IntVal := p, StrVal := "" } }] ∧
      (kluster.Spec.Port = 0 → p = 9090) ∧
      (0 < kluster.Spec.Port → p = kluster.Spec.Port) := by
  refine ⟨if kluster.Spec.Port == 0 then 9090 else kluster.Spec.Port, rfl, ?_, ?_, ?_⟩
  · have hp : IsInt32 (if kluster.Spec.Port == 0 then 9090 else kluster.Spec.Port) := by
      split
      · decide
      · exact hport
    simp only [recreateService.service, intstrPtr, intOfInt32, int32OfInt_of_isInt32 _ hp]
  · intro h0
    simp [h0]
  · intro hpos
    have hne : kluster.Spec.Port ≠ 0 := by omega
    simp [hne]

/-- C1, worked instance: the Kluster of the scenario (port 0) resolves to 9090 in both objects,
a Kluster with port 8080 resolves to 8080 in both. -/
theorem resolved_port_agrees_witness :
    (IsInt32 scenarioKluster.Spec.Port ∧
      (recreateDeployment.deployment scenarioKluster).Spec.Template.Spec.Containers.map
          (fun c => c.Ports) = [[{ ContainerPort := 9090 }]] ∧
      (recreateService.service scenarioKluster).Spec.Ports =
        [{ Port := 9090,
           TargetPort := { Type_ := IntstrType.Int, IntVal := 9090, StrVal := "" } }]) ∧
    (IsInt32 otherKluster.Spec.Port ∧
      (recreateDeployment.deployment otherKluster).Spec.Template.Spec.Containers.map
          (fun c => c.Ports) = [[{ ContainerPort := 8080 }]] ∧
      (recreateService.service otherKluster).Spec.Ports =
        [{ Port := 8080,
           TargetPort := { Type_ := IntstrType.Int, IntVal := 8080, StrVal := "" } }]) := by
  refine ⟨⟨by decide, ?_⟩, ⟨by decide, ?_⟩⟩
  · obtain ⟨p, hd, hs, h0, _⟩ := resolved_port_agrees scenarioKluster (by decide)
    rw [h0 rfl] at hd hs
    exact ⟨hd, hs⟩
  · obtain ⟨p, hd, hs, _, hpos⟩ := resolved_port_agrees otherKluster (by decide)
    rw [hpos (by decide)] at hd hs
    exact ⟨hd, hs⟩

/-- C8: for every Kluster the Deployment built by recreateDeployment has exactly one container;
its command is the four-element list ./BookApi, start, -p, d, where d is the decimal rendering
of the resolved port `p` of that Kluster, that is 9090 when spec.port is 0 and spec.port
otherwise, and `p` is also the container port (d is the text Lean's `toString` gives for the
integer `p`, and read back as a decimal numeral d has value `p`); for the spec replicas=3,
image=repo/bookapi:v1, port=0, whatever the metadata, the command is ./BookApi, start, -p, 9090,
and with port=8080 in that spec it is ./BookApi, start, -p, 8080. -/
theorem command_template (kluster : Kluster) :
    (∃ (c : Container) (p : Int) (d : String),
      (recreateDeployment.deployment kluster).Spec.Template.Spec.Containers = [c] ∧
      p = (if kluster.Spec.Port = 0 then 9090 else kluster.Spec.Port) ∧
      c.Ports = [{ ContainerPort := p }] ∧
      c.Command = ["./BookApi", "start", "-p", d] ∧
      d = toString p ∧ decimalValue d = p) ∧
    (recreateDeployment.deployment kluster).Spec.Template.Spec.Containers.map
        (fun c => c.Command) =
      [["./BookApi", "start", "-p",
        toString (if kluster.Spec.Port = 0 then 9090 else kluster.Spec.Port)]] ∧
    (∀ (objectMeta : ObjectMeta),
      (recreateDeployment.deployment
          { toObjectMeta := objectMeta
            Spec := { Replicas := 3, Image := "repo/bookapi:v1", Port := 0 } }
        ).Spec.Template.Spec.Containers.map (fun c => c.Command) =
        [["./BookApi", "start", "-p", "9090"]]) ∧
    ∀ (objectMeta : ObjectMeta),
      (recreateDeployment.deployment
          { toObjectMeta := objectMeta
            Spec := { Replicas := 3, Image := "repo/bookapi:v1", Port := 8080 } }
        ).Spec.Template.Spec.Containers.map (fun c => c.Command) =
        [["./BookApi", "start", "-p", "8080"]] := by
  have hres : (if kluster.Spec.Port == 0 then (9090 : Int) else kluster.Spec.Port) =
      (if kluster.Spec.Port = 0 then 9090 else kluster.Spec.Port) := by
    by_cases h : kluster.Spec.Port = 0 <;> simp [h]
  refine ⟨⟨_, if kluster.Spec.Port == 0 then 9090 else kluster.Spec.Port, _, rfl, hres, rfl, rfl,
      fmtSprint_eq_toString _, decimalValue_fmtSprint _⟩, ?_, ?_, ?_⟩
  · rw [← hres, ← fmtSprint_eq_toString]
    rfl
  · intro _
    simp only [recreateDeployment.deployment, List.map]
    decide
  · intro _
    simp only [recreateDeployment.deployment, List.map]
    decide

/-- C9: for every Kluster the Deployment built by recreateDeployment carries spec.replicas as
its replica count and spec.image as the image of its container, unchanged, also for zero
replicas and for the empty image; recreateDeployment rejects no spec: whatever the client and
the world, it reaches the create call with that Deployment. -/
theorem pass_through (kluster : Kluster) :
    (recreateDeployment.deployment kluster).Spec.Replicas = some kluster.Spec.Replicas ∧
    (recreateDeployment.deployment kluster).Spec.Template.Spec.Containers.map
        (fun c => c.Image) = [kluster.Spec.Image] ∧
    (∀ (objectMeta : ObjectMeta) (port : Int),
      (recreateDeployment.deployment
          { toObjectMeta := objectMeta, Spec := { Replicas := 0, Image := "", Port := port } }
        ).Spec.Replicas = some 0 ∧
      (recreateDeployment.deployment
          { toObjectMeta := objectMeta, Spec := { Replicas := 0, Image := "", Port := port } }
        ).Spec.Template.Spec.Containers.map (fun c => c.Image) = [""]) ∧
    ∀ (kube : KubeClient) (w : World),
      (recreateDeployment kube kluster w).calls =
        w.calls ++ [Call.createDeployment "default" (recreateDeployment.deployment kluster)] :=
  ⟨rfl, rfl, fun _ _ => ⟨rfl, rfl⟩, fun kube w => recreateDeployment_calls kube kluster w⟩

/-- C10: for every Kluster, whatever its name and fields, the Deployment built by
recreateDeployment is named bookapi-deployment in namespace default with labels app=bookapi,
its selector and its pod-template labels are app=bookapi; the Service built by recreateService
is named bookapi-service in namespace default with labels app=bookapi, type ClusterIP and
selector app=bookapi; both objects pass the test `Labels["app"] == "bookapi"` of their delete
handler. -/
theorem fixed_identities (kluster : Kluster) :
    (recreateDeployment.deployment kluster).Name = "bookapi-deployment" ∧
    (recreateDeployment.deployment kluster).Namespace = "default" ∧
    (recreateDeployment.deployment kluster).Labels = GoMap.literal [("app", "bookapi")] ∧
    (recreateDeployment.deployment kluster).Spec.Selector =
      some { MatchLabels := GoMap.literal [("app", "bookapi")] } ∧
    (recreateDeployment.deployment kluster).Spec.Template.Labels =
      GoMap.literal [("app", "bookapi")] ∧
    (recreateService.service kluster).Name = "bookapi-service" ∧
    (recreateService.service kluster).Namespace = "default" ∧
    (recreateService.service kluster).Labels = GoMap.literal [("app", "bookapi")] ∧
    (recreateService.service kluster).Spec.Type_ = ServiceType.ClusterIP ∧
    (recreateService.service kluster).Spec.Selector = GoMap.literal [("app", "bookapi")] ∧
    ((recreateDeployment.deployment kluster).Labels.index "app" == "bookapi") = true ∧
    ((recreateService.service kluster).Labels.index "app" == "bookapi") = true :=
  ⟨rfl, rfl, rfl, rfl, rfl, rfl, rfl, rfl, rfl, rfl, by rfl, by rfl⟩


/-! ## The Reconciler: delete handlers -/

/-- C4: for every Deployment (respectively Service) whose label map does not bind app to
bookapi, be the key absent, bound to another value or the map nil, the Deployment (Service)
delete handler returns with the world untouched: no list call, no create call, nothing
printed, whatever the store holds and whatever the clients would answer. -/
theorem label_gating (kube : KubeClient) (custom : CustomClient) (w : World) :
    (∀ deploy : Deployment, deploy.Labels.get? "app" ≠ some "bookapi" →
      deploymentDeleteFunc kube custom (Payload.deploymentPtr (some deploy)) w =
        Outcome.returned w) ∧
    (∀ svc : Service, svc.Labels.get? "app" ≠ some "bookapi" →
      serviceDeleteFunc kube custom (Payload.servicePtr (some svc)) w = Outcome.returned w) := by
  constructor
  · intro deploy h
    have hg : ¬ ((deploy.Labels.index "app" == "bookapi") = true) := fun hg =>
      h ((gate_iff _).1 hg)
    simp [deploymentDeleteFunc, hg]
  · intro svc h
    have hg : ¬ ((svc.Labels.index "app" == "bookapi") = true) := fun hg =>
      h ((gate_iff _).1 hg)
    simp [serviceDeleteFunc, hg]

/-- C4, worked instance: a Deployment with a nil label map and a Service labelled app=frontend,
deleted while the store holds two Klusters. -/
theorem label_gating_witness :
    unlabelledDeployment.Labels.get? "app" ≠ some "bookapi" ∧
    foreignService.Labels.get? "app" ≠ some "bookapi" ∧
    deploymentDeleteFunc memKube memCustom (Payload.deploymentPtr (some unlabelledDeployment))
      klusterWorld = Outcome.returned klusterWorld ∧
    serviceDeleteFunc memKube memCustom (Payload.servicePtr (some foreignService))
      klusterWorld = Outcome.returned klusterWorld :=
  ⟨by decide, by decide,
    (label_gating memKube memCustom klusterWorld).1 unlabelledDeployment (by decide),
    (label_gating memKube memCustom klusterWorld).2 foreignService (by decide)⟩

/-- C5: for every Deployment (respectively Service) delete event whose object is labelled
app=bookapi, if the Kluster list call answers with an error or with zero items, the handler
returns (no panic, no index out of range) after the list call alone: no create call is made
and the store is the store it started from. -/
theorem noop_on_empty_or_failed_list (kube : KubeClient) (custom : CustomClient) (w : World)
    (hlist : (custom.ListKlusters w.store "default").2.isSome = true ∨
      (custom.ListKlusters w.store "default").1.Items = []) :
    (∀ deploy : Deployment, deploy.Labels.get? "app" = some "bookapi" →
      deploymentDeleteFunc kube custom (Payload.deploymentPtr (some deploy)) w =
        Outcome.returned
          { store := w.store
            calls := w.calls ++ [Call.listKlusters "default"]
            out := w.out ++ ["🔁 Deployment deleted — self-healing triggered"] }) ∧
    (∀ svc : Service, svc.Labels.get? "app" = some "bookapi" →
      serviceDeleteFunc kube custom (Payload.servicePtr (some svc)) w =
        Outcome.returned
          { store := w.store
            calls := w.calls ++ [Call.listKlusters "default"]
            out := w.out ++ ["🔁 Service deleted — self-healing triggered"] }) := by
  have hguard : ¬ (((custom.ListKlusters w.store "default").2.isNone &&
      decide ((custom.ListKlusters w.store "default").1.Items.length > 0)) = true) := by
    rcases hlist with h | h
    · cases hr : (custom.ListKlusters w.store "default").2 with
      | none => rw [hr] at h; simp at h
      | some e => simp
    · simp [h]
  constructor
  · intro deploy h
    have hg := (gate_iff _).2 h
    simp only [deploymentDeleteFunc, hg, if_true, Println, hguard, if_false]
    rfl
  · intro svc h
    have hg := (gate_iff _).2 h
    simp only [serviceDeleteFunc, hg, if_true, Println, hguard, if_false]
    rfl

/-- C5, worked instance: the list call fails with a timeout (first two parts) and the list
call succeeds with zero items on an empty store (last two parts). -/
theorem noop_on_empty_or_failed_list_witness :
    ((failingCustom.ListKlusters klusterWorld.store "default").2.isSome = true ∧
      deploymentDeleteFunc memKube failingCustom
          (Payload.deploymentPtr (some (recreateDeployment.deployment scenarioKluster)))
          klusterWorld =
        Outcome.returned
          { store := klusterWorld.store
            calls := klusterWorld.calls ++ [Call.listKlusters "default"]
            out := klusterWorld.out ++ ["🔁 Deployment deleted — self-healing triggered"] }) ∧
    ((memCustom.ListKlusters emptyWorld.store "default").1.Items = [] ∧
      serviceDeleteFunc memKube memCustom
          (Payload.servicePtr (some (recreateService.service scenarioKluster))) emptyWorld =
        Outcome.returned
          { store := emptyWorld.store
            calls := emptyWorld.calls ++ [Call.listKlusters "default"]
            out := emptyWorld.out ++ ["🔁 Service deleted — self-healing triggered"] }) :=
  ⟨⟨by decide,
      (noop_on_empty_or_failed_list memKube failingCustom klusterWorld (Or.inl (by decide))).1
        (recreateDeployment.deployment scenarioKluster) (by decide)⟩,
    ⟨by decide,
      (noop_on_empty_or_failed_list memKube memCustom emptyWorld (Or.inr (by decide))).2
        (recreateService.service scenarioKluster) (by decide)⟩⟩

/-- C2: over a store whose Create refuses a Deployment whose namespace and name are taken with
an AlreadyExists error and leaves the store as it was, for every Kluster: when
bookapi-deployment is present in namespace default (whatever its labels), recreateDeployment
makes its create call, leaves the store unchanged and prints the success line, not the error
line; running it twice then gives the store that running it once gives; and, from any store,
whenever the first run leaves bookapi-deployment present, a second run leaves the store of the
first. -/
theorem idempotent_create (kube : KubeClient) (hdup : RejectsDuplicateDeployment kube)
    (kluster : Kluster) (w : World) :
    (hasDeployment w.store "default" "bookapi-deployment" = true →
      recreateDeployment kube kluster w =
        { store := w.store
          calls := w.calls ++
            [Call.createDeployment "default" (recreateDeployment.deployment kluster)]
          out := w.out ++ ["✅ Deployment recreated"] } ∧
      (recreateDeployment kube kluster (recreateDeployment kube kluster w)).store =
        (recreateDeployment kube kluster w).store) ∧
    (hasDeployment (recreateDeployment kube kluster w).store "default" "bookapi-deployment"
        = true →
      (recreateDeployment kube kluster (recreateDeployment kube kluster w)).store =
        (recreateDeployment kube kluster w).store) := by
  have second : hasDeployment (recreateDeployment kube kluster w).store "default"
      "bookapi-deployment" = true →
      (recreateDeployment kube kluster (recreateDeployment kube kluster w)).store =
        (recreateDeployment kube kluster w).store := by
    intro h
    rw [recreateDeployment_of_present kube hdup kluster (recreateDeployment kube kluster w) h]
  refine ⟨fun hpresent => ?_, second⟩
  have once := recreateDeployment_of_present kube hdup kluster w hpresent
  refine ⟨once, second ?_⟩
  rw [once]
  exact hpresent

/-- C2, worked instance: the in-memory store, first holding the Deployment already (the store
and the output are as stated), then empty (the first run creates, the second changes nothing). -/
theorem idempotent_create_witness :
    (hasDeployment (recreateDeployment memKube otherKluster emptyWorld).store "default"
        "bookapi-deployment" = true ∧
      recreateDeployment memKube scenarioKluster (recreateDeployment memKube otherKluster emptyWorld) =
        { store := [Object.deployment (recreateDeployment.deployment otherKluster)]
          calls := [Call.createDeployment "default" (recreateDeployment.deployment otherKluster),
            Call.createDeployment "default" (recreateDeployment.deployment scenarioKluster)]
          out := ["✅ Deployment recreated", "✅ Deployment recreated"] }) ∧
    (recreateDeployment memKube scenarioKluster
        (recreateDeployment memKube scenarioKluster emptyWorld)).store =
      (recreateDeployment memKube scenarioKluster emptyWorld).store :=
  ⟨⟨by decide,
      ((idempotent_create memKube memKube_rejectsDuplicateDeployment scenarioKluster
        (recreateDeployment memKube otherKluster emptyWorld)).1 (by decide)).1⟩,
    (idempotent_create memKube memKube_rejectsDuplicateDeployment scenarioKluster emptyWorld).2
      (by decide)⟩

/-- C7 as stated fails: the Deployment delete handler, handed the tombstone
`cache.DeletedFinalStateUnknown` an informer delivers for a missed delete, does not return;
it panics at the type assertion. -/
theorem malformed_event_counterexample :
    ¬ ((deploymentDeleteFunc memKube memCustom (Payload.other "cache.DeletedFinalStateUnknown")
        klusterWorld).isReturned = true) ∧
    deploymentDeleteFunc memKube memCustom (Payload.other "cache.DeletedFinalStateUnknown")
        klusterWorld = Outcome.panicked Panic.typeAssertion klusterWorld := by
  decide

/-- C7, amended: for every payload whose dynamic type is not the pointer type a handler asserts,
that handler invocation (Kluster add, Kluster delete, Deployment delete, Service delete) panics
at the type assertion, with the world untouched: nothing printed, no list call, no create call.
No handler recovers the panic. -/
theorem malformed_event_panics (kube : KubeClient) (custom : CustomClient) (obj : Payload)
    (w : World) :
    (obj.isKlusterPtr = false →
      klusterAddFunc kube obj w = Outcome.panicked Panic.typeAssertion w ∧
      klusterDeleteFunc obj w = Outcome.panicked Panic.typeAssertion w) ∧
    (obj.isDeploymentPtr = false →
      deploymentDeleteFunc kube custom obj w = Outcome.panicked Panic.typeAssertion w) ∧
    (obj.isServicePtr = false →
      serviceDeleteFunc kube custom obj w = Outcome.panicked Panic.typeAssertion w) := by
  refine ⟨?_, ?_, ?_⟩ <;> intro h <;> cases obj <;>
    first
    | rfl
    | exact ⟨rfl, rfl⟩
    | exact Bool.noConfusion h

/-- C7, worked instance: a Service handed to the Kluster handlers and to the Deployment delete
handler, a Kluster handed to the Service delete handler. -/
theorem malformed_event_panics_witness :
    (klusterAddFunc memKube
        (Payload.servicePtr (some (recreateService.service scenarioKluster))) klusterWorld =
        Outcome.panicked Panic.typeAssertion klusterWorld ∧
      klusterDeleteFunc
        (Payload.servicePtr (some (recreateService.service scenarioKluster))) klusterWorld =
        Outcome.panicked Panic.typeAssertion klusterWorld) ∧
    deploymentDeleteFunc memKube memCustom
        (Payload.servicePtr (some (recreateService.service scenarioKluster))) klusterWorld =
      Outcome.panicked Panic.typeAssertion klusterWorld ∧
    serviceDeleteFunc memKube memCustom (Payload.klusterPtr (some scenarioKluster)) klusterWorld =
      Outcome.panicked Panic.typeAssertion klusterWorld :=
  ⟨(malformed_event_panics memKube memCustom
      (Payload.servicePtr (some (recreateService.service scenarioKluster))) klusterWorld).1 rfl,
    (malformed_event_panics memKube memCustom
      (Payload.servicePtr (some (recreateService.service scenarioKluster))) klusterWorld).2.1 rfl,
    (malformed_event_panics memKube memCustom
      (Payload.klusterPtr (some scenarioKluster)) klusterWorld).2.2 rfl⟩

end BookApi
